import Mathlib

set_option autoImplicit false

/-
  Verification development for the AI-Self-Healing-Agents repository.

  The Python sources are shallowly embedded: each mutating method becomes a
  pure Lean function from the old object state (plus the environment inputs
  the method reads, such as timestamps, response times and the behaviour of
  the external LLM capability) to the new state and the returned record.
  A Python call that may raise is modelled with `Except String`, where
  `.error msg` stands for a raised exception carrying `str(e) = msg`.
  Python dicts used as keyed stores are modelled as association lists that
  are only extended at a key after a failed lookup, mirroring the
  lookup-before-insert discipline of the source.  Wall-clock fields
  (`time.time()`, `datetime.now()`) are threaded in as explicit arguments
  where a claim needs them and omitted where no claim reads them.
-/

namespace SelfHealing

/-! ### Character and substring helpers

The Python detectors use `re.search` with patterns that are (except for one
case, modelled separately below) plain alternations of literal tokens wrapped
in `.*(...).*,` i.e. substring tests.  `re.IGNORECASE` is modelled by lowering
the input with `Char.toLower` and writing the literal tokens in lower case. -/

def lowerChars (s : String) : List Char := s.data.map Char.toLower

/-- Does `pat` occur at the head of `l`? -/
def tokAt : List Char → List Char → Bool
  | [], _ => true
  | _ :: _, [] => false
  | p :: ps, c :: cs => p == c && tokAt ps cs

/-- Does `pat` occur anywhere in `l`?  (`re.search` with a literal token.) -/
def hasTok (pat : List Char) : List Char → Bool
  | [] => tokAt pat []
  | c :: cs => tokAt pat (c :: cs) || hasTok pat cs

/-- Does `lit` followed by one decimal digit occur at the head of `l`?
(`re.search` with a `lit\d+` pattern needs one digit after the literal.) -/
def litDigitAt : List Char → List Char → Bool
  | [], d :: _ => d.isDigit
  | [], [] => false
  | _ :: _, [] => false
  | p :: ps, c :: cs => p == c && litDigitAt ps cs

/-- Does `lit` followed by at least one decimal digit occur anywhere in `l`? -/
def hasLitDigit (lit : List Char) : List Char → Bool
  | [] => false
  | c :: cs => litDigitAt lit (c :: cs) || hasLitDigit lit cs

/-- The single-quote character (written via its code point). -/
def sq : Char := Char.ofNat 39

/-- Python `s[:n]`. -/
def strTake (n : Nat) (s : String) : String := String.mk (s.data.take n)

/-! ### Association-list helpers (Python dict operations) -/

/-- Python `key in d` / `d[key]` read, first binding wins. -/
def lookupA {β : Type} : List (String × β) → String → Option β
  | [], _ => none
  | (k, v) :: l, key => if k = key then some v else lookupA l key

/-- Python `d[key] = v`: replace the binding if present, append otherwise. -/
def setA {β : Type} : List (String × β) → String → β → List (String × β)
  | [], k, v => [(k, v)]
  | (k1, v1) :: l, k, v => if k1 = k then (k1, v) :: l else (k1, v1) :: setA l k v

/-- Update the value at a key that is already bound. -/
def updateA {β : Type} : List (String × β) → String → (β → β) → List (String × β)
  | [], _, _ => []
  | (k1, v1) :: l, k, f => if k1 = k then (k1, f v1) :: l else (k1, v1) :: updateA l k f

/-- Each key is bound at most once (the dict property of a keyed store). -/
def keysNodup {β : Type} (l : List (String × β)) : Prop := (l.map Prod.fst).Nodup

/-! ### BaseAgent (src/src/agents/base_agent.py)

`τ` is the task type, `δ` the diagnosis payload type, `ρ` the result payload
type of the pluggable task-processing capability `process`. -/

structure Metrics where
  total_requests : Nat
  successful_requests : Nat
  average_response_time : ℚ
  total_errors : Nat
deriving DecidableEq

/-- One entry of `error_history`: the dict built in the except branch of
`execute` (its `agent_status` field is read before the status update). -/
structure ErrorEntry (τ : Type) where
  error : String
  task : τ
  timestamp : String
  agent_status : String

/-- `diagnosis or {"reason": "preventive_healing"}` in `heal`. -/
inductive HealDiag (δ : Type) where
  | given (d : δ)
  | preventive
deriving DecidableEq

/-- One entry of `healing_history` (the `healing_action` dict). -/
structure HealingAction (δ : Type) where
  action : String
  timestamp : String
  old_error_count : Nat
  diagnosis : HealDiag δ

/-- The mutable fields of a `BaseAgent` that `execute`/`heal` touch. -/
structure AgentState (τ δ : Type) where
  status : String
  error_count : Nat
  metrics : Metrics
  error_history : List (ErrorEntry τ)
  healing_history : List (HealingAction δ)

/-- The state right after `BaseAgent.__init__`. -/
def freshAgent (τ δ : Type) : AgentState τ δ :=
  { status := "healthy"
    error_count := 0
    metrics := { total_requests := 0, successful_requests := 0
                 average_response_time := 0, total_errors := 0 }
    error_history := []
    healing_history := [] }

/-- The two dict shapes returned by `BaseAgent.execute`. -/
inductive ExecResult (ρ : Type) where
  | ok (result : ρ) (agent_id : String) (response_time : ℚ) (timestamp : String)
  | fail (error : String) (agent_id : String) (error_count : Nat) (status : String)
      (timestamp : String)

/-- `BaseAgent.execute`.  `outcome` is what `await self.process(task)` did:
`.ok r` when it returned `r`, `.error e` when it raised an exception with
`str(e) = e`.  The except branch catches every ordinary exception, so the
embedding is a total function: `execute` itself never raises. -/
def execute {τ δ ρ : Type} (agent_id : String) (s : AgentState τ δ) (task : τ)
    (outcome : Except String ρ) (response_time : ℚ) (timestamp : String) :
    AgentState τ δ × ExecResult ρ :=
  let m := { s.metrics with total_requests := s.metrics.total_requests + 1 }
  match outcome with
  | .ok r =>
    let n : Nat := m.successful_requests + 1
    let avg := (m.average_response_time * ((n : ℚ) - 1) + response_time) / (n : ℚ)
    ({ s with metrics := { m with successful_requests := n, average_response_time := avg } },
     .ok r agent_id response_time timestamp)
  | .error e =>
    let ec := s.error_count + 1
    let entry : ErrorEntry τ :=
      { error := e, task := task, timestamp := timestamp, agent_status := s.status }
    let st := if ec > 10 then "failed" else if ec > 3 then "degraded" else s.status
    ({ s with error_count := ec
              metrics := { m with total_errors := m.total_errors + 1 }
              error_history := s.error_history ++ [entry]
              status := st },
     .fail e agent_id ec st timestamp)

/-- The dict returned by `BaseAgent.heal`. -/
structure HealResult (δ : Type) where
  success : Bool
  healing_action : HealingAction δ
  new_status : String
  agent_id : String

/-- `BaseAgent.heal`: sets status to healing, records the action, resets
the error count, sets status to healthy and appends to `healing_history`. -/
def heal {τ δ : Type} (agent_id : String) (s : AgentState τ δ) (diagnosis : Option δ)
    (timestamp : String) : AgentState τ δ × HealResult δ :=
  let s1 := { s with status := "healing" }
  let act : HealingAction δ :=
    { action := "reset", timestamp := timestamp, old_error_count := s1.error_count
      diagnosis := match diagnosis with | some d => .given d | none => .preventive }
  let s2 := { s1 with error_count := 0, status := "healthy"
                      healing_history := s1.healing_history ++ [act] }
  (s2, { success := true, healing_action := act, new_status := s2.status
         agent_id := agent_id })

/-! ### Iterated failures and operation sequences (for C1, C10) -/

/-- The environment inputs of one failing `execute` call: the exception text
raised by `process`, the task, the elapsed time and the timestamp. -/
structure FailInput (τ : Type) where
  msg : String
  task : τ
  rt : ℚ
  ts : String

/-- The agent state after `k` consecutive failing `execute` calls starting
from a fresh agent, under an arbitrary environment `env`. -/
def runFailures {τ δ : Type} (agent_id : String) (env : Nat → FailInput τ) :
    Nat → AgentState τ δ
  | 0 => freshAgent τ δ
  | k + 1 =>
    (execute (ρ := Unit) agent_id (runFailures agent_id env k) (env k).task
      (.error (env k).msg) (env k).rt (env k).ts).1

/-- The status the threshold rule in the except branch of `execute` yields
after `k` consecutive failures from a fresh (healthy) agent. -/
def statusOfCount (k : Nat) : String :=
  if 10 < k then "failed" else if 3 < k then "degraded" else "healthy"

/-- One step of an agent history: an `execute` call (with the behaviour of
`process` and the environment inputs) or a `heal` call. -/
inductive AgentOp (τ δ ρ : Type) where
  | exec (task : τ) (outcome : Except String ρ) (rt : ℚ) (ts : String)
  | doHeal (diagnosis : Option δ) (ts : String)

/-- Run a sequence of `execute`/`heal` calls against an agent state. -/
def runOps {τ δ ρ : Type} (agent_id : String) :
    AgentState τ δ → List (AgentOp τ δ ρ) → AgentState τ δ
  | s, [] => s
  | s, .exec task outcome rt ts :: ops =>
      runOps agent_id (execute agent_id s task outcome rt ts).1 ops
  | s, .doHeal d ts :: ops =>
      runOps agent_id (heal agent_id s d ts).1 ops

lemma runFailures_count_status {τ δ : Type} (agent_id : String)
    (env : Nat → FailInput τ) (k : Nat) :
    (runFailures (δ := δ) agent_id env k).error_count = k ∧
    (runFailures (δ := δ) agent_id env k).status = statusOfCount k := by
  induction k with
  | zero => exact ⟨rfl, rfl⟩
  | succ n ih =>
    obtain ⟨hec, hst⟩ := ih
    constructor
    · simp [runFailures, execute, hec]
    · simp only [runFailures, execute, hec, hst, statusOfCount]
      split_ifs <;> first | rfl | omega

lemma statusOfCount_failed (k : Nat) : statusOfCount k = "failed" ↔ 10 < k := by
  unfold statusOfCount
  split_ifs with h1 h2 <;> simp_all

lemma statusOfCount_degraded (k : Nat) :
    statusOfCount k = "degraded" ↔ 3 < k ∧ k ≤ 10 := by
  unfold statusOfCount
  split_ifs with h1 h2 <;> simp_all

lemma statusOfCount_healthy (k : Nat) : statusOfCount k = "healthy" ↔ k ≤ 3 := by
  unfold statusOfCount
  split_ifs with h1 h2 <;> simp_all
  omega

/-- **C1.**  Starting from a fresh agent, after `k` consecutive failing
`execute()` calls (no `heal()`), `error_count = k` and the status is
`failed` iff `k > 10`, `degraded` iff `3 < k ≤ 10`, and `healthy` iff
`k ≤ 3`; in particular the agent that reached `error_count = 4` (already
degraded) stays `degraded` after one more failing task. -/
theorem c1_status_thresholds {τ δ : Type} (agent_id : String)
    (env : Nat → FailInput τ) (k : Nat) :
    (runFailures (δ := δ) agent_id env k).error_count = k ∧
    ((runFailures (δ := δ) agent_id env k).status = "failed" ↔ 10 < k) ∧
    ((runFailures (δ := δ) agent_id env k).status = "degraded" ↔ 3 < k ∧ k ≤ 10) ∧
    ((runFailures (δ := δ) agent_id env k).status = "healthy" ↔ k ≤ 3) ∧
    (runFailures (δ := δ) agent_id env 4).error_count = 4 ∧
    (runFailures (δ := δ) agent_id env 4).status = "degraded" ∧
    (runFailures (δ := δ) agent_id env 5).status = "degraded" := by
  obtain ⟨hec, hst⟩ := runFailures_count_status (δ := δ) agent_id env k
  obtain ⟨hec4, hst4⟩ := runFailures_count_status (δ := δ) agent_id env 4
  obtain ⟨-, hst5⟩ := runFailures_count_status (δ := δ) agent_id env 5
  rw [hst, hec, hst4, hst5]
  refine ⟨rfl, statusOfCount_failed k, statusOfCount_degraded k,
    statusOfCount_healthy k, hec4, ?_, ?_⟩ <;> rfl

/-- **C5.**  `execute` is a total function of the handler outcome (it never
re-raises): when `process` raises `e`, it returns the structured failure
record carrying the error text, the incremented error count and the agent
current (post-update) status, and it increments `error_count` and
`metrics.total_errors` and appends exactly one `error_history` entry. -/
theorem c5_execute_failure_contract {τ δ ρ : Type} (agent_id : String)
    (s : AgentState τ δ) (task : τ) (e : String) (rt : ℚ) (ts : String) :
    (execute (ρ := ρ) agent_id s task (.error e) rt ts).2 =
      .fail e agent_id (s.error_count + 1)
        (execute (ρ := ρ) agent_id s task (.error e) rt ts).1.status ts ∧
    (execute (ρ := ρ) agent_id s task (.error e) rt ts).1.error_count =
      s.error_count + 1 ∧
    (execute (ρ := ρ) agent_id s task (.error e) rt ts).1.metrics.total_errors =
      s.metrics.total_errors + 1 ∧
    (execute (ρ := ρ) agent_id s task (.error e) rt ts).1.metrics.total_requests =
      s.metrics.total_requests + 1 ∧
    (execute (ρ := ρ) agent_id s task (.error e) rt ts).1.error_history =
      s.error_history ++ [{ error := e, task := task, timestamp := ts
                            agent_status := s.status }] := by
  refine ⟨rfl, rfl, rfl, rfl, rfl⟩

/-- **C6.**  `heal` is unconditional and idempotent: from any prior state it
leaves `error_count = 0` and status `healthy`, appends exactly one
`healing_history` entry (the returned `healing_action`), and a second
`heal` yields the same `error_count` and status as the first. -/
theorem c6_heal_idempotent {τ δ : Type} (agent_id : String) (s : AgentState τ δ)
    (d1 d2 : Option δ) (ts1 ts2 : String) :
    (heal agent_id s d1 ts1).1.error_count = 0 ∧
    (heal agent_id s d1 ts1).1.status = "healthy" ∧
    (heal agent_id s d1 ts1).1.healing_history =
      s.healing_history ++ [(heal agent_id s d1 ts1).2.healing_action] ∧
    (heal agent_id s d1 ts1).2.success = true ∧
    (heal agent_id (heal agent_id s d1 ts1).1 d2 ts2).1.error_count =
      (heal agent_id s d1 ts1).1.error_count ∧
    (heal agent_id (heal agent_id s d1 ts1).1 d2 ts2).1.status =
      (heal agent_id s d1 ts1).1.status ∧
    (heal agent_id (heal agent_id s d1 ts1).1 d2 ts2).1.healing_history.length =
      s.healing_history.length + 2 := by
  refine ⟨rfl, rfl, rfl, rfl, rfl, rfl, ?_⟩
  simp [heal]

/-- The metrics identity `total_requests = successful_requests + total_errors`. -/
def metricsBalanced (m : Metrics) : Prop :=
  m.total_requests = m.successful_requests + m.total_errors

lemma runOps_balanced {τ δ ρ : Type} (agent_id : String) (s : AgentState τ δ)
    (ops : List (AgentOp τ δ ρ)) (h : metricsBalanced s.metrics) :
    metricsBalanced (runOps agent_id s ops).metrics := by
  induction ops generalizing s with
  | nil => exact h
  | cons op ops ih =>
    cases op with
    | exec task outcome rt ts =>
      cases outcome with
      | ok r =>
        apply ih
        simp only [metricsBalanced, execute] at h ⊢
        omega
      | error e =>
        apply ih
        simp only [metricsBalanced, execute] at h ⊢
        omega
    | doHeal d ts =>
      apply ih
      simpa only [metricsBalanced, heal] using h

/-- **C10.**  From a fresh agent, after any sequence of `execute` and `heal`
calls (each `process` call either returns or raises an ordinary exception),
`total_requests = successful_requests + total_errors`; moreover `heal`
leaves every metrics field unchanged. -/
theorem c10_metrics_invariant {τ δ ρ : Type} (agent_id : String)
    (ops : List (AgentOp τ δ ρ)) :
    (runOps agent_id (freshAgent τ δ) ops).metrics.total_requests =
      (runOps agent_id (freshAgent τ δ) ops).metrics.successful_requests +
      (runOps agent_id (freshAgent τ δ) ops).metrics.total_errors ∧
    (∀ (s : AgentState τ δ) (d : Option δ) (ts : String),
      (heal agent_id s d ts).1.metrics = s.metrics) := by
  constructor
  · exact runOps_balanced agent_id (freshAgent τ δ) ops rfl
  · intro s d ts
    rfl

/-! ### HealingAgent (src/src/agents/healing_agent.py)

The external LLM capability (`QwenClient.generate`) is an oracle: each call
either returns a text (`.ok response`) or raises (`.error e`).  `J` is the
type of parsed JSON values; `parseJson` models `json.loads`, returning
`none` when parsing raises.  Prompt construction (pure f-string and
`json.dumps` over JSON-representable task data) does not affect control
flow and is elided; the oracle value stands for the whole call. -/

/-- The `fallback_diagnosis` dict of `_ai_diagnose`. -/
structure FallbackDiagnosis where
  root_cause : String
  severity : String
  immediate_actions : List String
deriving DecidableEq

/-- The three dict shapes `_ai_diagnose` can return. -/
inductive DiagnoseResult (J : Type) where
  | parsed (diagnosis : J)
  | unparsedText (ai_analysis : String)
  | failed (error : String) (fallback_diagnosis : FallbackDiagnosis)

/-- `HealingAgent._ai_diagnose`. -/
def ai_diagnose {J : Type} (parseJson : String → Option J)
    (llm : Except String String) : DiagnoseResult J :=
  match llm with
  | .ok response =>
    match parseJson response with
    | some d => .parsed d
    | none => .unparsedText response
  | .error e =>
    .failed ("AI diagnosis failed: " ++ e)
      { root_cause := "Unknown - requires manual investigation"
        severity := "High"
        immediate_actions := ["Check logs", "Restart service", "Verify dependencies"] }

/-- The `fallback_plan` dict of `_generate_healing_plan`. -/
structure FallbackPlan where
  steps : List String
  rollback : String
deriving DecidableEq

/-- The two dict shapes `_generate_healing_plan` can return. -/
inductive PlanResult where
  | generated (plan : String) (generated_by : String)
  | failed (fallback_plan : FallbackPlan) (error : String)
deriving DecidableEq

/-- `HealingAgent._generate_healing_plan`. -/
def generate_healing_plan (llm : Except String String) : PlanResult :=
  match llm with
  | .ok response => .generated response "qwen_ai"
  | .error e =>
    .failed { steps := ["Restart the agent", "Clear cache", "Verify configuration"]
              rollback := "Restore from last known good state" } e

/-- The dict returned by `_execute_healing` (simulated remediation). -/
structure HealExecutionResult where
  executed : Bool
  target_agent : String
  execution_time : ℚ
  status : String
  simulation : Bool

/-- `HealingAgent._execute_healing`: always reports `executed = true`. -/
def execute_healing (_plan : PlanResult) (target_agent : String) : HealExecutionResult :=
  { executed := true, target_agent := target_agent, execution_time := 1
    status := "healing_applied", simulation := true }

/-- A healing task as read by `heal_agent` via `task.get`. -/
structure HealTask (μ : Type) where
  target_agent : Option String
  issue : Option String
  metrics : Option μ

/-- Python rendering of a possibly-missing string in an f-string. -/
def optToStr : Option String → String
  | some s => s
  | none => "None"

/-- The `operation` record appended to `healing_operations`. -/
structure HealingOperation (J : Type) where
  target_agent : Option String
  issue : String
  diagnosis : DiagnoseResult J
  healing_plan : PlanResult
  result : HealExecutionResult
  healer_id : String

/-- The dict returned by `heal_agent`. -/
structure HealAgentOutcome (J : Type) where
  success : Bool
  operation : HealingOperation J
  message : String

/-- `HealingAgent.heal_agent`: diagnose, plan, execute, record.  The two
LLM oracles `diagnoseLLM` and `planLLM` are the behaviours of the
`generate` calls inside `_ai_diagnose` and `_generate_healing_plan`. -/
def heal_agent {J μ : Type} (healer_id : String)
    (ops : List (HealingOperation J)) (task : HealTask μ)
    (parseJson : String → Option J) (diagnoseLLM planLLM : Except String String) :
    List (HealingOperation J) × HealAgentOutcome J :=
  let issue := task.issue.getD "Unknown issue"
  let diagnosis := ai_diagnose parseJson diagnoseLLM
  let plan := generate_healing_plan planLLM
  let result := execute_healing plan (optToStr task.target_agent)
  let op : HealingOperation J :=
    { target_agent := task.target_agent, issue := issue, diagnosis := diagnosis
      healing_plan := plan, result := result, healer_id := healer_id }
  (ops ++ [op],
   { success := true, operation := op
     message := "Healing initiated for " ++ optToStr task.target_agent })

/-- **C2.**  For every healing task and every behaviour of the external LLM
capability at the diagnose and plan stages (each call may return any text or
raise any exception, in any combination), `heal_agent` is a total function:
it returns a `success = true` outcome carrying a `HealingOperation` record
and appends exactly that record to the `healing_operations` log.  In the
embedding every exceptional path of the source is an `.error` oracle value,
so totality of this function is the no-propagation contract. -/
theorem c2_heal_agent_never_fails {J μ : Type} (healer_id : String)
    (ops : List (HealingOperation J)) (task : HealTask μ)
    (parseJson : String → Option J) (diagnoseLLM planLLM : Except String String) :
    (heal_agent healer_id ops task parseJson diagnoseLLM planLLM).2.success = true ∧
    (heal_agent healer_id ops task parseJson diagnoseLLM planLLM).1 =
      ops ++ [(heal_agent healer_id ops task parseJson diagnoseLLM planLLM).2.operation] ∧
    (heal_agent healer_id ops task parseJson diagnoseLLM planLLM).2.operation.result.executed
      = true := by
  refine ⟨rfl, rfl, rfl⟩

/-- **C9 (counterexample).**  The claim quotes the fallback root cause as
`unknown — requires investigation`; the code fallback is the different
string `Unknown - requires manual investigation`, as evaluation at the
concrete failing behaviour `.error "boom"` shows. -/
theorem c9_counterexample :
    ai_diagnose (J := Unit) (fun _ => none) (.error "boom") =
      .failed "AI diagnosis failed: boom"
        { root_cause := "Unknown - requires manual investigation"
          severity := "High"
          immediate_actions := ["Check logs", "Restart service", "Verify dependencies"] } ∧
    "Unknown - requires manual investigation" ≠ "unknown — requires investigation" := by
  exact ⟨rfl, by decide⟩

/-- **C9 (amended).**  When `generate` raises, the diagnose stage returns the
static fallback diagnosis with `root_cause = "Unknown - requires manual
investigation"` and `severity = "High"` (inside the failure record), and the
plan stage returns the fallback plan with steps restart / clear cache /
verify configuration. -/
theorem c9_fallback_contents {J : Type} (parseJson : String → Option J)
    (e1 e2 : String) :
    ai_diagnose parseJson (.error e1) =
      .failed ("AI diagnosis failed: " ++ e1)
        { root_cause := "Unknown - requires manual investigation"
          severity := "High"
          immediate_actions := ["Check logs", "Restart service", "Verify dependencies"] } ∧
    generate_healing_plan (.error e2) =
      .failed { steps := ["Restart the agent", "Clear cache", "Verify configuration"]
                rollback := "Restore from last known good state" } e2 := by
  exact ⟨rfl, rfl⟩

/-! ### CodeHealingAgent (src/src/agents/code_healing_agent.py) -/

/-- `CodeHealingAgent._extract_bug_pattern`: keyword tokens from the error
text (lower-cased) plus one regex-derived token from the triggering input
(no IGNORECASE on the input regexes), joined with underscores. -/
def extract_bug_pattern (error_message input_data : String) : String :=
  let el := lowerChars error_message
  let il := input_data.data
  let pats :=
    (if hasTok "division".data el && hasTok "zero".data el
     then ["division_by_zero"] else []) ++
    (if hasTok "json".data el then ["json_parsing"] else []) ++
    (if hasTok "memory".data el then ["memory_overflow"] else []) ++
    (if hasLitDigit "special_case_".data il then ["special_case_number"]
     else if hasTok "malformed_json".data il then ["malformed_json"]
     else if hasLitDigit "large_dataset_".data il then ["large_dataset"]
     else [])
  if pats = [] then "unknown_bug" else String.intercalate "_" pats

/-- `json.loads(response)` succeeding or falling back to a raw wrapper. -/
inductive AnalysisResult (J : Type) where
  | parsed (analysis : J)
  | raw_response (response : String)

/-- The value stored in `self.code_fixes[bug_pattern]`. -/
structure CodeFix (J : Type) where
  analysis : AnalysisResult J
  pattern : String
  input_example : String
  error : String

/-- The value stored in `self.bug_patterns[bug_pattern]`. -/
structure BugPatternInfo where
  occurrences : Nat
  last_input : String

/-- The cache fields of a `CodeHealingAgent`. -/
structure CodeHealerState (J : Type) where
  code_fixes : List (String × CodeFix J)
  bug_patterns : List (String × BugPatternInfo)

/-- A bug-analysis task as read via `task.get`. -/
structure CodeTask where
  error : Option String
  input : Option String
  code : Option String

/-- The three dict shapes returned by `analyze_and_fix_bug`:
`action = "apply_existing_fix"`, `action = "generated_new_fix"`, or the
`success = False` error dict. -/
inductive BugFixOutcome (J : Type) where
  | existing (pattern : String) (fix : CodeFix J)
  | generated (pattern : String) (analysis : AnalysisResult J)
  | failed (error : String)

/-- `CodeHealingAgent.analyze_and_fix_bug`.  The last component counts the
external `generate` calls the invocation performed (0 on a cache hit). -/
def analyze_and_fix_bug {J : Type} (s : CodeHealerState J) (task : CodeTask)
    (parseJson : String → Option J) (llm : Except String String) :
    CodeHealerState J × BugFixOutcome J × Nat :=
  let error_message := task.error.getD ""
  let input_data := task.input.getD ""
  let bug_pattern := extract_bug_pattern error_message input_data
  match lookupA s.code_fixes bug_pattern with
  | some fix => (s, .existing bug_pattern fix, 0)
  | none =>
    match llm with
    | .ok response =>
      let analysis : AnalysisResult J :=
        match parseJson response with
        | some j => .parsed j
        | none => .raw_response response
      let fix : CodeFix J :=
        { analysis := analysis, pattern := bug_pattern
          input_example := input_data, error := error_message }
      ({ code_fixes := s.code_fixes ++ [(bug_pattern, fix)]
         bug_patterns := s.bug_patterns ++
           [(bug_pattern, { occurrences := 1, last_input := input_data })] },
       .generated bug_pattern analysis, 1)
    | .error e => (s, .failed ("Bug analysis failed: " ++ e), 1)

/-! ### SecurityHealingAgent (src/src/agents/security_healing_agent.py) -/

/-- Insertion step for Python `sorted()` over strings (lexicographic by
code point, which is the Mathlib linear order on `String`). -/
def insortStr (x : String) : List String → List String
  | [] => [x]
  | y :: ys => if x ≤ y then x :: y :: ys else y :: insortStr x ys

/-- Python `sorted()` on a list of strings. -/
def sortStrings (l : List String) : List String := l.foldr insortStr []

/-- The category tokens extracted by `_hash_attack_pattern`: the sql and xss
regexes carry `re.IGNORECASE`, the path regex does not. -/
def attack_sig_tokens (attack_input : String) : List String :=
  let l := lowerChars attack_input
  let raw := attack_input.data
  (if hasTok [sq] l || hasTok ";".data l || hasTok "--".data l ||
      hasTok "union".data l || hasTok "select".data l then ["sql"] else []) ++
  (if hasTok "<script>".data l || hasTok "javascript:".data l ||
      hasTok "onload=".data l then ["xss"] else []) ++
  (if hasTok "../".data raw || hasTok "..\\".data raw then ["path"] else [])

/-- `SecurityHealingAgent._hash_attack_pattern`.  `md5_8` is the (pure)
`hashlib.md5(...).hexdigest()[:8]` digest function, taken as a parameter. -/
def hash_attack_pattern (md5_8 : String → String) (attack_input : String) : String :=
  let patterns := attack_sig_tokens attack_input
  if patterns = [] then md5_8 attack_input
  else md5_8 (String.intercalate "_" (sortStrings patterns))

/-- The value stored in `self.attack_defenses[attack_hash]`. -/
structure DefenseRecord (J : Type) where
  analysis : AnalysisResult J
  attack_type : String
  attack_input : String

/-- The per-category `threat_intelligence` counters. -/
structure ThreatInfo where
  occurrences : Nat
  defenses_generated : Nat

/-- The cache fields of a `SecurityHealingAgent`. -/
structure SecurityHealerState (J : Type) where
  attack_defenses : List (String × DefenseRecord J)
  threat_intelligence : List (String × ThreatInfo)

/-- The three dict shapes returned by `analyze_security_attack`. -/
inductive DefenseOutcome (J : Type) where
  | existing (attack_hash : String) (defense : DefenseRecord J)
  | generated (attack_hash : String) (analysis : AnalysisResult J)
  | failed (error : String)

/-- `SecurityHealingAgent.analyze_security_attack`; last component counts
external `generate` calls. -/
def analyze_security_attack {J : Type} (md5_8 : String → String)
    (s : SecurityHealerState J) (attack_input attack_type : String)
    (parseJson : String → Option J) (llm : Except String String) :
    SecurityHealerState J × DefenseOutcome J × Nat :=
  let attack_hash := hash_attack_pattern md5_8 attack_input
  match lookupA s.attack_defenses attack_hash with
  | some d => (s, .existing attack_hash d, 0)
  | none =>
    match llm with
    | .ok response =>
      let analysis : AnalysisResult J :=
        match parseJson response with
        | some j => .parsed j
        | none => .raw_response response
      let record : DefenseRecord J :=
        { analysis := analysis, attack_type := attack_type
          attack_input := strTake 100 attack_input }
      let ti :=
        match lookupA s.threat_intelligence attack_type with
        | some _ => updateA s.threat_intelligence attack_type
            (fun t => { occurrences := t.occurrences + 1
                        defenses_generated := t.defenses_generated + 1 })
        | none => s.threat_intelligence ++
            [(attack_type, { occurrences := 1, defenses_generated := 1 })]
      ({ attack_defenses := s.attack_defenses ++ [(attack_hash, record)]
         threat_intelligence := ti },
       .generated attack_hash analysis, 1)
    | .error e => (s, .failed ("Security analysis failed: " ++ e), 1)

lemma lookupA_append_hit {β : Type} (l : List (String × β)) (k : String) (v : β)
    (h : lookupA l k = none) : lookupA (l ++ [(k, v)]) k = some v := by
  induction l with
  | nil => simp [lookupA]
  | cons p l ih =>
    obtain ⟨k1, v1⟩ := p
    by_cases hk : k1 = k
    · simp [lookupA, hk] at h
    · simp only [List.cons_append, lookupA, if_neg hk] at h ⊢
      exact ih h

lemma lookupA_none_not_mem {β : Type} (l : List (String × β)) (k : String)
    (h : lookupA l k = none) : k ∉ l.map Prod.fst := by
  induction l with
  | nil => simp
  | cons p l ih =>
    obtain ⟨k1, v1⟩ := p
    by_cases hk : k1 = k
    · simp [lookupA, hk] at h
    · simp only [lookupA, if_neg hk] at h
      simp only [List.map_cons, List.mem_cons, not_or]
      exact ⟨fun he => hk he.symm, ih h⟩

lemma keysNodup_append {β : Type} (l : List (String × β)) (k : String) (v : β)
    (hn : keysNodup l) (h : lookupA l k = none) : keysNodup (l ++ [(k, v)]) := by
  have hk := lookupA_none_not_mem l k h
  unfold keysNodup at hn ⊢
  rw [List.map_append, List.nodup_append]
  refine ⟨hn, List.nodup_singleton k, ?_⟩
  intro a ha hb
  simp only [List.map_cons, List.map_nil, List.mem_singleton] at hb
  subst hb
  exact hk ha

/-- **C3.**  Fix/defense cache round trip.  For the code healer: a first
request whose signature misses the cache and whose generation succeeds
stores the fix under the signature; a second request deriving the same
signature returns `action = apply_existing_fix` with exactly that stored
artifact, performs 0 external generation calls and leaves the cache
unchanged.  Likewise for the security healer with
`action = apply_existing_defense`.  A signature maps to at most one cached
artifact: the lookup-before-insert discipline preserves key uniqueness. -/
theorem c3_cache_round_trip {J : Type} (parseJson : String → Option J)
    (s : CodeHealerState J) (t1 t2 : CodeTask) (resp : String)
    (llm2 : Except String String)
    (md5_8 : String → String) (ss : SecurityHealerState J)
    (i1 i2 ty1 ty2 resp2 : String) (llm4 : Except String String)
    (hpat : extract_bug_pattern (t2.error.getD "") (t2.input.getD "") =
            extract_bug_pattern (t1.error.getD "") (t1.input.getD ""))
    (hmiss : lookupA s.code_fixes
      (extract_bug_pattern (t1.error.getD "") (t1.input.getD "")) = none)
    (hnodup : keysNodup s.code_fixes)
    (hsig : hash_attack_pattern md5_8 i2 = hash_attack_pattern md5_8 i1)
    (hmiss2 : lookupA ss.attack_defenses (hash_attack_pattern md5_8 i1) = none)
    (hnodup2 : keysNodup ss.attack_defenses) :
    (analyze_and_fix_bug (analyze_and_fix_bug s t1 parseJson (.ok resp)).1
        t2 parseJson llm2).2.1 =
      .existing (extract_bug_pattern (t1.error.getD "") (t1.input.getD ""))
        { analysis := match parseJson resp with
            | some j => .parsed j
            | none => .raw_response resp
          pattern := extract_bug_pattern (t1.error.getD "") (t1.input.getD "")
          input_example := t1.input.getD ""
          error := t1.error.getD "" } ∧
    (analyze_and_fix_bug (analyze_and_fix_bug s t1 parseJson (.ok resp)).1
        t2 parseJson llm2).2.2 = 0 ∧
    (analyze_and_fix_bug (analyze_and_fix_bug s t1 parseJson (.ok resp)).1
        t2 parseJson llm2).1 =
      (analyze_and_fix_bug s t1 parseJson (.ok resp)).1 ∧
    keysNodup (analyze_and_fix_bug s t1 parseJson (.ok resp)).1.code_fixes ∧
    (analyze_security_attack md5_8
        (analyze_security_attack md5_8 ss i1 ty1 parseJson (.ok resp2)).1
        i2 ty2 parseJson llm4).2.1 =
      .existing (hash_attack_pattern md5_8 i1)
        { analysis := match parseJson resp2 with
            | some j => .parsed j
            | none => .raw_response resp2
          attack_type := ty1
          attack_input := strTake 100 i1 } ∧
    (analyze_security_attack md5_8
        (analyze_security_attack md5_8 ss i1 ty1 parseJson (.ok resp2)).1
        i2 ty2 parseJson llm4).2.2 = 0 ∧
    (analyze_security_attack md5_8
        (analyze_security_attack md5_8 ss i1 ty1 parseJson (.ok resp2)).1
        i2 ty2 parseJson llm4).1 =
      (analyze_security_attack md5_8 ss i1 ty1 parseJson (.ok resp2)).1 ∧
    keysNodup (analyze_security_attack md5_8 ss i1 ty1 parseJson
        (.ok resp2)).1.attack_defenses := by
  have e1 : (analyze_and_fix_bug s t1 parseJson (.ok resp)).1.code_fixes =
      s.code_fixes ++
        [(extract_bug_pattern (t1.error.getD "") (t1.input.getD ""),
          { analysis := match parseJson resp with
              | some j => .parsed j
              | none => .raw_response resp
            pattern := extract_bug_pattern (t1.error.getD "") (t1.input.getD "")
            input_example := t1.input.getD ""
            error := t1.error.getD "" })] := by
    simp only [analyze_and_fix_bug, hmiss]
  have e2 : (analyze_security_attack md5_8 ss i1 ty1 parseJson
      (.ok resp2)).1.attack_defenses =
      ss.attack_defenses ++
        [(hash_attack_pattern md5_8 i1,
          { analysis := match parseJson resp2 with
              | some j => .parsed j
              | none => .raw_response resp2
            attack_type := ty1
            attack_input := strTake 100 i1 })] := by
    simp only [analyze_security_attack, hmiss2]
  set s1 := (analyze_and_fix_bug s t1 parseJson (.ok resp)).1 with hs1
  set ss1 := (analyze_security_attack md5_8 ss i1 ty1 parseJson (.ok resp2)).1
    with hss1
  have hl : lookupA s1.code_fixes
      (extract_bug_pattern (t1.error.getD "") (t1.input.getD "")) =
      some { analysis := match parseJson resp with
               | some j => .parsed j
               | none => .raw_response resp
             pattern := extract_bug_pattern (t1.error.getD "") (t1.input.getD "")
             input_example := t1.input.getD ""
             error := t1.error.getD "" } := by
    rw [e1]
    exact lookupA_append_hit _ _ _ hmiss
  have hl2 : lookupA ss1.attack_defenses (hash_attack_pattern md5_8 i1) =
      some { analysis := match parseJson resp2 with
               | some j => .parsed j
               | none => .raw_response resp2
             attack_type := ty1
             attack_input := strTake 100 i1 } := by
    rw [e2]
    exact lookupA_append_hit _ _ _ hmiss2
  refine ⟨?_, ?_, ?_, ?_, ?_, ?_, ?_, ?_⟩
  · simp only [analyze_and_fix_bug, hpat, hl]
  · simp only [analyze_and_fix_bug, hpat, hl]
  · simp only [analyze_and_fix_bug, hpat, hl]
  · rw [e1]
    exact keysNodup_append _ _ _ hnodup hmiss
  · simp only [analyze_security_attack, hsig, hl2]
  · simp only [analyze_security_attack, hsig, hl2]
  · simp only [analyze_security_attack, hsig, hl2]
  · rw [e2]
    exact keysNodup_append _ _ _ hnodup2 hmiss2

/-- Witness for C3 at concrete inputs: empty caches, the tasks with no
`error`/`input` keys (signature `unknown_bug`), the empty attack input
(signature `md5_8 ""` with `md5_8 = id`), and a second request whose
generation oracle would raise, showing it is never consulted. -/
theorem c3_cache_round_trip_witness :
    (extract_bug_pattern "" "" = extract_bug_pattern "" "" ∧
     lookupA (([] : List (String × CodeFix Unit))) (extract_bug_pattern "" "") = none ∧
     keysNodup (([] : List (String × CodeFix Unit))) ∧
     hash_attack_pattern id "" = hash_attack_pattern id "" ∧
     lookupA (([] : List (String × DefenseRecord Unit))) (hash_attack_pattern id "") = none ∧
     keysNodup (([] : List (String × DefenseRecord Unit)))) ∧
    ((analyze_and_fix_bug
        (analyze_and_fix_bug (J := Unit) ⟨[], []⟩ ⟨none, none, none⟩
          (fun _ => none) (.ok "fix")).1
        ⟨none, none, none⟩ (fun _ => none) (.error "nocall")).2.1 =
      .existing "unknown_bug"
        { analysis := .raw_response "fix", pattern := "unknown_bug"
          input_example := "", error := "" } ∧
     (analyze_and_fix_bug
        (analyze_and_fix_bug (J := Unit) ⟨[], []⟩ ⟨none, none, none⟩
          (fun _ => none) (.ok "fix")).1
        ⟨none, none, none⟩ (fun _ => none) (.error "nocall")).2.2 = 0 ∧
     (analyze_security_attack id
        (analyze_security_attack (J := Unit) id ⟨[], []⟩ "" "sql_injection"
          (fun _ => none) (.ok "defense")).1
        "" "xss" (fun _ => none) (.error "nocall2")).2.1 =
      .existing ""
        { analysis := .raw_response "defense", attack_type := "sql_injection"
          attack_input := "" } ∧
     (analyze_security_attack id
        (analyze_security_attack (J := Unit) id ⟨[], []⟩ "" "sql_injection"
          (fun _ => none) (.ok "defense")).1
        "" "xss" (fun _ => none) (.error "nocall2")).2.2 = 0) := by
  constructor
  · exact ⟨rfl, rfl, List.nodup_nil, rfl, rfl, List.nodup_nil⟩
  · obtain ⟨h1, h2, -, -, h5, h6, -, -⟩ :=
      c3_cache_round_trip (J := Unit) (fun _ => none) ⟨[], []⟩
        ⟨none, none, none⟩ ⟨none, none, none⟩ "fix" (.error "nocall")
        id ⟨[], []⟩ "" "" "sql_injection" "xss" "defense" (.error "nocall2")
        rfl rfl List.nodup_nil rfl rfl List.nodup_nil
    exact ⟨h1, h2, h5, h6⟩

/-! ### SimpleHealingGraph (src/src/graph/healing_graph.py)

`process_tasks` loops over the agents; `await agent.execute(task)` sits in
a `try`/`except`, so an agent is keyed into `results` when the call returns
and into `errors` (with `str(e)`) when the call itself raises.  The call
behaviour of each `agent.execute` is an `Except String R` value.  `route`
is the conditional edge registered on the `process` node. -/

inductive GraphRoute where
  | heal
  | done
deriving DecidableEq

/-- `SimpleHealingGraph.process_tasks`: partition the dispatch fan-out into
the results map and the errors map, in agent order. -/
def process_tasks {R : Type} (agents : List (String × Except String R)) :
    List (String × R) × List (String × String) :=
  agents.foldl
    (fun acc a =>
      match a.2 with
      | .ok r => (acc.1 ++ [(a.1, r)], acc.2)
      | .error e => (acc.1, acc.2 ++ [(a.1, e)]))
    ([], [])

/-- The `route` closure: `"heal" if state.get("errors") else END`. -/
def route {E : Type} (errors : List (String × E)) : GraphRoute :=
  if errors.isEmpty then .done else .heal

/-- Does an `Except` value stand for a raised exception? -/
def isRaised {R : Type} : Except String R → Bool
  | .error _ => true
  | .ok _ => false

/-- Dispatching one task to `BaseAgent`-style agents: each list element is
(agent id, agent state, behaviour of its `process` capability, response
time, timestamp), and each dispatch runs `BaseAgent.execute`, which is a
total function — so the value handed to `process_tasks` is always `.ok`. -/
def dispatch_base_agents {τ δ ρ : Type} (task : τ)
    (agents : List (String × AgentState τ δ × Except String ρ × ℚ × String)) :
    List (String × ExecResult ρ) × List (String × String) :=
  process_tasks (agents.map (fun a =>
    (a.1, Except.ok (execute a.1 a.2.1 task a.2.2.1 a.2.2.2.1 a.2.2.2.2).2)))

lemma process_tasks_foldl {R : Type} (agents : List (String × Except String R))
    (acc : List (String × R) × List (String × String)) :
    (agents.foldl
      (fun acc a =>
        match a.2 with
        | .ok r => (acc.1 ++ [(a.1, r)], acc.2)
        | .error e => (acc.1, acc.2 ++ [(a.1, e)]))
      acc).1.length =
      acc.1.length + (agents.filter (fun a => !(isRaised a.2))).length ∧
    (agents.foldl
      (fun acc a =>
        match a.2 with
        | .ok r => (acc.1 ++ [(a.1, r)], acc.2)
        | .error e => (acc.1, acc.2 ++ [(a.1, e)]))
      acc).2.length =
      acc.2.length + (agents.filter (fun a => isRaised a.2)).length := by
  induction agents generalizing acc with
  | nil => simp
  | cons a agents ih =>
    obtain ⟨aid, beh⟩ := a
    cases beh with
    | ok r =>
      obtain ⟨ih1, ih2⟩ := ih ((acc.1 ++ [(aid, r)], acc.2))
      constructor
      · simpa [isRaised, List.filter_cons, Nat.add_assoc, Nat.add_comm 1] using ih1
      · simpa [isRaised, List.filter_cons] using ih2
    | error e =>
      obtain ⟨ih1, ih2⟩ := ih ((acc.1, acc.2 ++ [(aid, e)]))
      constructor
      · simpa [isRaised, List.filter_cons] using ih1
      · simpa [isRaised, List.filter_cons, Nat.add_assoc, Nat.add_comm 1] using ih2

lemma filter_length_partition {R : Type}
    (agents : List (String × Except String R)) :
    (agents.filter (fun a => !(isRaised a.2))).length +
      (agents.filter (fun a => isRaised a.2)).length = agents.length := by
  induction agents with
  | nil => rfl
  | cons a agents ih =>
    by_cases h : isRaised a.2 = true <;>
      simp [List.filter_cons, h, ← ih] <;> omega

/-- **C4 (counterexample).**  One task dispatched to `M = 1` agent whose
task-processing capability raises (`K = 1`): `BaseAgent.execute` catches
the exception and returns a structured failure, so the errors map produced
by the Dispatch stage has 0 entries — not `K = 1` — and the graph routes to
`Done`, not to `Heal`. -/
theorem c4_counterexample :
    (dispatch_base_agents (τ := Unit) (δ := Unit) (ρ := Unit) ()
      [("agent_1", freshAgent Unit Unit, Except.error "boom", 0, "t0")]).2.length
      = 0 ∧
    (dispatch_base_agents (τ := Unit) (δ := Unit) (ρ := Unit) ()
      [("agent_1", freshAgent Unit Unit, Except.error "boom", 0, "t0")]).2.length
      ≠ 1 ∧
    route (dispatch_base_agents (τ := Unit) (δ := Unit) (ρ := Unit) ()
      [("agent_1", freshAgent Unit Unit, Except.error "boom", 0, "t0")]).2
      = .done ∧
    (dispatch_base_agents (τ := Unit) (δ := Unit) (ρ := Unit) ()
      [("agent_1", freshAgent Unit Unit, Except.error "boom", 0, "t0")]).1.length
      = 1 := by
  exact ⟨rfl, by decide, rfl, rfl⟩

/-- **C4 (amended).**  The errors map counts the `execute()` calls that
themselves raise: for one task dispatched to `M` agents of which exactly
`K` have an `execute()` call that raises, the errors map has exactly `K`
entries, the results map has the other `M − K`, and the graph transitions
to the Heal stage iff `K > 0`.  Since `BaseAgent.execute` catches handler
exceptions and returns a structured failure, an agent whose
task-processing capability raises an ordinary exception lands in the
results map (`success = false`), not in the errors map. -/
theorem c4_amended_dispatch_partition {R : Type}
    (agents : List (String × Except String R)) :
    (process_tasks agents).2.length =
      (agents.filter (fun a => isRaised a.2)).length ∧
    (process_tasks agents).1.length =
      agents.length - (agents.filter (fun a => isRaised a.2)).length ∧
    (route (process_tasks agents).2 = .heal ↔
      0 < (agents.filter (fun a => isRaised a.2)).length) := by
  obtain ⟨h1, h2⟩ := process_tasks_foldl agents ([], [])
  have hp := filter_length_partition agents
  have hr : (process_tasks agents).1.length =
      (agents.filter (fun a => !(isRaised a.2))).length := by
    simpa [process_tasks] using h1
  have he : (process_tasks agents).2.length =
      (agents.filter (fun a => isRaised a.2)).length := by
    simpa [process_tasks] using h2
  refine ⟨he, by rw [hr]; omega, ?_⟩
  unfold route
  split_ifs with h
  · have hk : (agents.filter (fun a => isRaised a.2)).length = 0 := by
      rw [← he]
      simp only [List.isEmpty_iff] at h
      simp [h]
    simp [hk]
  · have hk : 0 < (agents.filter (fun a => isRaised a.2)).length := by
      rw [← he]
      simp only [List.isEmpty_iff] at h
      exact List.length_pos.mpr h
    simp [hk]

/-! ### VulnerableAgent (src/src/agents/vulnerable_agent.py)

`_detect_attacks` applies every registry pattern with `re.IGNORECASE`, so
the input is lowered once and the literal tokens are written in lower
case.  All patterns but one are alternations of literal tokens; the
remaining sql pattern `or\s+[the class of quote and 1]=[same class]` gets
a dedicated matcher.  Whitespace is the ASCII `\s` class. -/

/-- The character class in the third sql pattern: a single quote or `1`. -/
def isQuoteOr1 (c : Char) : Bool := c == sq || c == '1'

/-- ASCII whitespace, as matched by `\s`. -/
def isWs (c : Char) : Bool :=
  c == ' ' || c == '\t' || c == '\n' || c == '\r' ||
  c == Char.ofNat 11 || c == Char.ofNat 12

/-- Match `[quote-or-1]=[quote-or-1]` at the head of the list. -/
def eqCmpAt : List Char → Bool
  | q1 :: '=' :: q2 :: _ => isQuoteOr1 q1 && isQuoteOr1 q2
  | _ => false

/-- Match `\s+[quote-or-1]=[quote-or-1]` at the head of the list. -/
def wsEqCmpAt : List Char → Bool
  | [] => false
  | c :: rest => isWs c && (eqCmpAt rest || wsEqCmpAt rest)

/-- Match `or\s+[quote-or-1]=[quote-or-1]` at the head of the list. -/
def orCmpAt : List Char → Bool
  | 'o' :: 'r' :: rest => wsEqCmpAt rest
  | _ => false

/-- Search the whole (lowered) list for the `or`-comparison sql pattern. -/
def hasOrCmp : List Char → Bool
  | [] => false
  | c :: rest => orCmpAt (c :: rest) || hasOrCmp rest

/-- The three `sql_injection` registry patterns. -/
def sql_injection_match (l : List Char) : Bool :=
  (hasTok [sq] l || hasTok ";".data l || hasTok "--".data l ||
     hasTok "union".data l || hasTok "select".data l) ||
  (hasTok "drop".data l || hasTok "delete".data l ||
     hasTok "insert".data l || hasTok "update".data l) ||
  hasOrCmp l

/-- The two `xss` registry patterns. -/
def xss_match (l : List Char) : Bool :=
  (hasTok "<script>".data l || hasTok "javascript:".data l ||
     hasTok "onload=".data l) ||
  (hasTok "alert(".data l || hasTok "document.cookie".data l)

/-- The two `path_traversal` registry patterns. -/
def path_traversal_match (l : List Char) : Bool :=
  (hasTok "../".data l || hasTok "..\\".data l) ||
  (hasTok "/etc/passwd".data l || hasTok "c:\\windows".data l)

/-- The two `brute_force` registry patterns. -/
def brute_force_match (l : List Char) : Bool :=
  (hasTok "admin".data l || hasTok "root".data l) ||
  (hasTok "password".data l || hasTok "123456".data l || hasTok "qwerty".data l)

/-- `VulnerableAgent._detect_attacks`: categories in registry order, a
category appearing once when any of its patterns matches (the inner loop
breaks on the first matching pattern). -/
def detect_attacks (input_str : String) : List String :=
  let l := lowerChars input_str
  (if sql_injection_match l then ["sql_injection"] else []) ++
  (if xss_match l then ["xss"] else []) ++
  (if path_traversal_match l then ["path_traversal"] else []) ++
  (if brute_force_match l then ["brute_force"] else [])

/-- A value of the `security_measures` dict: `False` initially, a truthy
measure dict after `add_security_measure`. -/
inductive SecurityMeasure where
  | off
  | applied (code : String)
deriving DecidableEq

/-- Python truthiness of a `security_measures` value. -/
def measureTruthy : SecurityMeasure → Bool
  | .off => false
  | .applied _ => true

/-- One `attack_attempts` log entry (`input` truncated to 100 chars; the
wall-clock timestamp field is omitted). -/
structure AttackAttempt where
  input : String
  attacks : List String
deriving DecidableEq

/-- The mutable fields of `VulnerableAgent` that `process` and
`add_security_measure` touch. -/
structure VulnerableState where
  security_measures : List (String × SecurityMeasure)
  attack_attempts : List AttackAttempt
deriving DecidableEq

/-- The state right after `VulnerableAgent.__init__`. -/
def initialVulnerableState : VulnerableState :=
  { security_measures :=
      [("sql_injection", .off), ("xss", .off),
       ("path_traversal", .off), ("rate_limit", .off)]
    attack_attempts := [] }

/-- `self.security_measures.get(attack, False)`. -/
def getMeasure (s : VulnerableState) (attack : String) : SecurityMeasure :=
  (lookupA s.security_measures attack).getD .off

/-- The three ways `VulnerableAgent.process` can end: raising
`SecurityError`, returning the blocked dict (`protected = True`), or
normal processing. -/
inductive VulnProcessOutcome where
  | raised (message : String)
  | blocked (protected_flag : Bool) (attacks_detected : List String)
  | normal (result : String)
deriving DecidableEq

/-- `VulnerableAgent.process` on a task with keys `input` and `action`. -/
def vulnerable_process (s : VulnerableState) (input action : String) :
    VulnerableState × VulnProcessOutcome :=
  let detected := detect_attacks input
  if detected.isEmpty then
    (s, .normal
      (if action = "echo" then "Echo: " ++ input
       else if action = "reverse" then String.mk input.data.reverse
       else "Processed: " ++ input))
  else
    let s1 := { s with attack_attempts := s.attack_attempts ++
      [{ input := strTake 100 input, attacks := detected }] }
    match detected.filter (fun a => !(measureTruthy (getMeasure s a))) with
    | a :: _ => (s1, .raised ("Security vulnerability exploited: " ++ a))
    | [] => (s1, .blocked true detected)

/-- `VulnerableAgent.add_security_measure`. -/
def add_security_measure (s : VulnerableState) (attack_type measure_code : String) :
    VulnerableState :=
  { s with
    security_measures := setA s.security_measures attack_type (.applied measure_code) }

/-- **C7.**  The defense gate of `VulnerableAgent.process`: on an input
matching at least one attack category, if some detected category has no
registered defense the task processing raises the categorized
`SecurityError` fault naming such a category, and if every detected
category has a registered defense it returns the blocked result with
`protected = true` without raising.  Concretely,
`<script>alert(1)</script>` raises the xss security violation from the
initial state and returns the blocked `protected = true` result once a
defense is registered for the script-injection (`xss`) category. -/
theorem c7_attack_gate (s : VulnerableState) (input action : String)
    (hdet : detect_attacks input ≠ []) :
    ((∃ c ∈ detect_attacks input, measureTruthy (getMeasure s c) = false) →
      ∃ c, c ∈ detect_attacks input ∧ measureTruthy (getMeasure s c) = false ∧
        (vulnerable_process s input action).2 =
          .raised ("Security vulnerability exploited: " ++ c)) ∧
    ((∀ c ∈ detect_attacks input, measureTruthy (getMeasure s c) = true) →
      (vulnerable_process s input action).2 =
        .blocked true (detect_attacks input)) ∧
    (vulnerable_process initialVulnerableState "<script>alert(1)</script>" "echo").2 =
      .raised "Security vulnerability exploited: xss" ∧
    (vulnerable_process (add_security_measure initialVulnerableState "xss" "sanitize")
        "<script>alert(1)</script>" "echo").2 = .blocked true ["xss"] := by
  have hie : (detect_attacks input).isEmpty = false := by
    cases hd : detect_attacks input
    · exact absurd hd hdet
    · rfl
  refine ⟨?_, ?_, by decide, by decide⟩
  · rintro ⟨c, hc, hm⟩
    rcases hfil : (detect_attacks input).filter
        (fun a => !(measureTruthy (getMeasure s a))) with - | ⟨a, rest⟩
    · exfalso
      have hcf : c ∈ (detect_attacks input).filter
          (fun a => !(measureTruthy (getMeasure s a))) := by
        rw [List.mem_filter]
        exact ⟨hc, by simp [hm]⟩
      rw [hfil] at hcf
      exact absurd hcf (List.not_mem_nil c)
    · have ha : a ∈ (detect_attacks input).filter
          (fun b => !(measureTruthy (getMeasure s b))) := by
        rw [hfil]
        exact List.mem_cons_self a rest
      rw [List.mem_filter] at ha
      refine ⟨a, ha.1, by simpa using ha.2, ?_⟩
      simp only [vulnerable_process, hie, Bool.false_eq_true, if_false, hfil]
  · intro hall
    have hfil : (detect_attacks input).filter
        (fun a => !(measureTruthy (getMeasure s a))) = [] := by
      rw [List.filter_eq_nil_iff]
      intro a ha
      simp [hall a ha]
    simp only [vulnerable_process, hie, Bool.false_eq_true, if_false, hfil]

/-- Witness for C7: the concrete scenario input, applied at the initial
(unprotected) state; the hypotheses hold by evaluation. -/
theorem c7_attack_gate_witness :
    (detect_attacks "<script>alert(1)</script>" ≠ [] ∧
     (∃ c ∈ detect_attacks "<script>alert(1)</script>",
        measureTruthy (getMeasure initialVulnerableState c) = false)) ∧
    ((∃ c, c ∈ detect_attacks "<script>alert(1)</script>" ∧
        measureTruthy (getMeasure initialVulnerableState c) = false ∧
        (vulnerable_process initialVulnerableState "<script>alert(1)</script>" "echo").2 =
          .raised ("Security vulnerability exploited: " ++ c)) ∧
     (vulnerable_process initialVulnerableState "<script>alert(1)</script>" "echo").2 =
       .raised "Security vulnerability exploited: xss" ∧
     (vulnerable_process (add_security_measure initialVulnerableState "xss" "sanitize")
        "<script>alert(1)</script>" "echo").2 = .blocked true ["xss"]) := by
  refine ⟨⟨by decide, by decide⟩, ?_⟩
  obtain ⟨h1, -, h3, h4⟩ :=
    c7_attack_gate initialVulnerableState "<script>alert(1)</script>" "echo" (by decide)
  exact ⟨h1 (by decide), h3, h4⟩

lemma vulnerable_process_log (s : VulnerableState) (input action : String) :
    (vulnerable_process s input action).1.attack_attempts =
      if (detect_attacks input).isEmpty then s.attack_attempts
      else s.attack_attempts ++ [{ input := strTake 100 input
                                   attacks := detect_attacks input }] := by
  cases hie : (detect_attacks input).isEmpty
  · rcases hfil : (detect_attacks input).filter
        (fun a => !(measureTruthy (getMeasure s a))) with - | ⟨c, cs⟩ <;>
      simp [vulnerable_process, hie, hfil]
  · simp [vulnerable_process, hie]

/-- The scenario input of the spec, `admin[q] OR [q]1[q]=[q]1` where `[q]`
is the single-quote character. -/
def adminOr11 : String := String.mk
  ['a', 'd', 'm', 'i', 'n', sq, ' ', 'O', 'R', ' ', sq, '1', sq, '=', sq, '1']

/-- **C8.**  Attack detection is a pure, deterministic function of the input
string: `_detect_attacks` is embedded as a function of the input alone, and
the attack-log entry `process` appends (which records the detected category
list) is identical for any two agent states and `action` values fed the same
input.  In particular the injection probe `admin[q] OR [q]1[q]=[q]1`
classifies as a `sql_injection` match (its full category list being
`[sql_injection, brute_force]`). -/
theorem c8_detection_pure (s1 s2 : VulnerableState) (input a1 a2 : String) :
    ((vulnerable_process s1 input a1).1.attack_attempts.drop
        s1.attack_attempts.length =
      (vulnerable_process s2 input a2).1.attack_attempts.drop
        s2.attack_attempts.length) ∧
    "sql_injection" ∈ detect_attacks adminOr11 ∧
    detect_attacks adminOr11 = ["sql_injection", "brute_force"] := by
  refine ⟨?_, by decide, by decide⟩
  rw [vulnerable_process_log, vulnerable_process_log]
  cases hie : (detect_attacks input).isEmpty <;>
    simp [hie, List.drop_length, List.drop_left]

end SelfHealing
